import Mathlib

/-!
Verification of the Robotrading portfolio / stop-loss core.

Shallow embedding of `advanced_stop_loss.py`, `portfolio_manager.py` and the
relevant dataclasses of `config_manager.py`.  Python floats are modelled as
rationals (`ℚ`); timestamps are rationals counting seconds; the Python `int()` builtin
truncation and `timedelta.seconds` are modelled explicitly.
-/

namespace Robotrading

/-- Embeds the `PositionTracker` dataclass of `advanced_stop_loss.py`
(lines 42-51): per-symbol tracking state for advanced stop-loss
calculations.  `entry_time` and `last_check` are timestamps in seconds. -/
structure PositionTracker where
  symbol : String
  entry_price : ℚ
  entry_time : ℚ
  high_price : ℚ
  quantity : ℤ
  atr_value : ℚ
  last_check : ℚ
  deriving Repr, DecidableEq

/-- `PositionTracker.update_high_price` (advanced_stop_loss.py lines 53-56):
replace `high_price` by `current_price` when the latter is strictly larger. -/
def PositionTracker.update_high_price (t : PositionTracker) (current_price : ℚ) :
    PositionTracker :=
  if current_price > t.high_price then { t with high_price := current_price } else t

/-- `PositionTracker.get_trailing_stop` (lines 58-60):
`high_price * (1 - trailing_percent / 100)`. -/
def PositionTracker.get_trailing_stop (t : PositionTracker) (trailing_percent : ℚ) : ℚ :=
  t.high_price * (1 - trailing_percent / 100)

/-- `PositionTracker.get_atr_stop` (lines 62-64):
`entry_price - atr_multiplier * atr_value`. -/
def PositionTracker.get_atr_stop (t : PositionTracker) (atr_multiplier : ℚ) : ℚ :=
  t.entry_price - atr_multiplier * t.atr_value

/-- `PositionTracker.get_effective_stop` (lines 66-70): the higher of the
trailing stop and the ATR stop. -/
def PositionTracker.get_effective_stop (t : PositionTracker)
    (trailing_percent atr_multiplier : ℚ) : ℚ :=
  max (t.get_trailing_stop trailing_percent) (t.get_atr_stop atr_multiplier)

/-- Tracker creation for a newly seen position
(`AdvancedStopLossManager.update_position_trackers`, lines 129-141):
`entry_price := avg_cost`, `high_price := max(avg_cost, current_price)`,
`entry_time` and `last_check` set to the current time. -/
def mkPositionTracker (symbol : String) (avg_cost current_price : ℚ)
    (now : ℚ) (qty : ℤ) (atr : ℚ) : PositionTracker :=
  { symbol := symbol
    entry_price := avg_cost
    entry_time := now
    high_price := max avg_cost current_price
    quantity := qty
    atr_value := atr
    last_check := now }

/-- Feeding a sequence of price observations to a tracker, one
`update_high_price` per observation. -/
def trackPrices (t : PositionTracker) (prices : List ℚ) : PositionTracker :=
  prices.foldl PositionTracker.update_high_price t

/-- The Python `timedelta.seconds` attribute for a duration of `d` seconds:
the normalized seconds component, `0 ≤ seconds < 86400` (days are carried
separately).  Modelled as `⌊d⌋ % 86400` with Euclidean remainder, which
matches the normalization Python performs. -/
def timedeltaSeconds (d : ℚ) : ℤ :=
  (⌊d⌋ : ℤ) % 86400

/-- The update path for an already-tracked symbol in
`AdvancedStopLossManager.update_position_trackers`
(advanced_stop_loss.py lines 142-151), statement by statement:
`tracker.update_high_price(current_price)`; then
`tracker.last_check = current_time`; then
`if (current_time - tracker.last_check).seconds > 3600:` refresh
`atr_value` from a fresh ATR computation (`fresh_atr` stands for the
value `calculate_atr` would return) and set `last_check` again. -/
def update_existing_tracker (tracker : PositionTracker) (current_price : ℚ)
    (current_time : ℚ) (fresh_atr : ℚ) : PositionTracker :=
  let t1 := tracker.update_high_price current_price
  let t2 := { t1 with last_check := current_time }
  if timedeltaSeconds (current_time - t2.last_check) > 3600 then
    { t2 with atr_value := fresh_atr, last_check := current_time }
  else
    t2

/-- Embeds the `StopLossConfig` dataclass of `config_manager.py`
(lines 57-68).  These are exactly the fields the dataclass declares;
note there is no `stop_loss_threshold` field (that field belongs to
`TradingConfig`, config_manager.py line 52). -/
structure StopLossConfig where
  enabled : Bool
  trailing_percent : ℚ
  atr_multiplier : ℚ
  atr_period : ℤ
  regime_aware : Bool
  high_vol_threshold : ℚ
  high_vol_tightening : ℚ
  intraday_check_interval : ℤ
  min_hold_time : ℤ
  deriving Repr, DecidableEq

/-- The default `StopLossConfig` values (config_manager.py lines 57-68). -/
def defaultStopLossConfig : StopLossConfig :=
  { enabled := true
    trailing_percent := 5
    atr_multiplier := 2
    atr_period := 14
    regime_aware := true
    high_vol_threshold := 1/2
    high_vol_tightening := 3/5
    intraday_check_interval := 15
    min_hold_time := 30 }

/-- Python attribute access for numeric attributes on a `StopLossConfig`
instance: returns the field value for each name the dataclass declares
(config_manager.py lines 57-68) and `none` (an `AttributeError`) for any
other name.  The dataclass has no `__getattr__`, and no code assigns
extra attributes to the instance, so lookup of an undeclared name fails. -/
def StopLossConfig.getNumAttr (c : StopLossConfig) (name : String) : Option ℚ :=
  if name = "trailing_percent" then some c.trailing_percent
  else if name = "atr_multiplier" then some c.atr_multiplier
  else if name = "atr_period" then some (c.atr_period : ℚ)
  else if name = "high_vol_threshold" then some c.high_vol_threshold
  else if name = "high_vol_tightening" then some c.high_vol_tightening
  else if name = "intraday_check_interval" then some (c.intraday_check_interval : ℚ)
  else if name = "min_hold_time" then some (c.min_hold_time : ℚ)
  else none

/-- One entry of the broker position snapshot consumed by
`check_stop_loss_positions` (`ib.positions()`): quantity (`position`),
market value and average cost for one symbol. -/
structure BrokerPosition where
  symbol : String
  position : ℚ
  marketValue : ℚ
  averageCost : ℚ
  deriving Repr, DecidableEq

/-- Lookup of a symbol in the `position_trackers` dict, modelled as an
association list. -/
def findTracker (trackers : List (String × PositionTracker)) (symbol : String) :
    Option PositionTracker :=
  (trackers.find? (fun p => p.1 = symbol)).map (·.2)

/-- The regime-aware threshold computation of
`AdvancedStopLossManager.check_stop_loss_positions`
(advanced_stop_loss.py lines 199-207), with the value read for
`stop_loss_threshold` passed in as `thr`:
`effective_threshold = thr`, then if `regime_aware` and the regime
probability is present and exceeds `high_vol_threshold`, replace it by
`thr * high_vol_tightening`. -/
def effective_threshold (regime_aware : Bool) (high_vol_threshold : ℚ)
    (high_vol_tightening : ℚ) (thr : ℚ) (regime_prob : Option ℚ) : ℚ :=
  match regime_prob with
  | none => thr
  | some p =>
      if regime_aware && decide (p > high_vol_threshold) then thr * high_vol_tightening
      else thr

/-- The body of the `for pos in positions` loop of
`check_stop_loss_positions` (advanced_stop_loss.py lines 181-220), with
every numeric read of `self.config.stop_loss` routed through Python
attribute lookup (`StopLossConfig.getNumAttr`); `Except.error ()` is a
raised `AttributeError`.  `regime_prob` is the result of
`get_hmm_regime_probability` for the symbol.  Returns `ok none` when the
position is skipped and `ok (some entry)` when a stop-loss trigger is
appended. -/
def check_position_py (cfg : StopLossConfig)
    (trackers : List (String × PositionTracker)) (current_time : ℚ)
    (regime_prob : Option ℚ) (pos : BrokerPosition) :
    Except Unit (Option (String × ℚ × String)) :=
  if pos.position ≤ 0 then Except.ok none
  else
    let current_price := pos.marketValue / pos.position
    let avg_cost := pos.averageCost
    match findTracker trackers pos.symbol with
    | none => Except.ok none
    | some tracker =>
      match cfg.getNumAttr "min_hold_time" with
      | none => Except.error ()
      | some mht =>
        let hold_time_minutes := (current_time - tracker.entry_time) / 60
        if hold_time_minutes < mht then Except.ok none
        else
          match cfg.getNumAttr "stop_loss_threshold" with
          | none => Except.error ()
          | some thr =>
            match cfg.getNumAttr "high_vol_threshold",
                cfg.getNumAttr "high_vol_tightening" with
            | some hvt, some hvk =>
              let _eff_thr := effective_threshold cfg.regime_aware hvt hvk thr regime_prob
              match cfg.getNumAttr "trailing_percent", cfg.getNumAttr "atr_multiplier" with
              | some tp, some am =>
                let effective_stop := tracker.get_effective_stop tp am
                let loss_pct := (current_price - avg_cost) / avg_cost * 100
                if current_price < effective_stop then
                  Except.ok (some (pos.symbol, loss_pct, "Stop-loss triggered"))
                else Except.ok none
              | _, _ => Except.error ()
            | _, _ => Except.error ()

/-- The accumulation loop of `check_stop_loss_positions` under its
`try/except` (advanced_stop_loss.py lines 178-237): positions are
processed in order, triggers are appended to `acc`, and a raised
exception aborts the loop — the function then returns whatever was
accumulated so far. -/
def check_loop_py (cfg : StopLossConfig)
    (trackers : List (String × PositionTracker)) (current_time : ℚ)
    (probs : String → Option ℚ) :
    List BrokerPosition → List (String × ℚ × String) →
    List (String × ℚ × String)
  | [], acc => acc.reverse
  | pos :: rest, acc =>
      match check_position_py cfg trackers current_time (probs pos.symbol) pos with
      | Except.error _ => acc.reverse
      | Except.ok none => check_loop_py cfg trackers current_time probs rest acc
      | Except.ok (some entry) =>
          check_loop_py cfg trackers current_time probs rest (entry :: acc)

/-- `AdvancedStopLossManager.check_stop_loss_positions`
(advanced_stop_loss.py lines 163-237) with the connection available,
stop-loss enabled, and the tracker map already updated: run the loop over
the broker snapshot with an empty accumulator. -/
def check_stop_loss_positions (cfg : StopLossConfig)
    (trackers : List (String × PositionTracker)) (current_time : ℚ)
    (probs : String → Option ℚ) (positions : List BrokerPosition) :
    List (String × ℚ × String) :=
  if cfg.enabled then check_loop_py cfg trackers current_time probs positions []
  else []

/-- The configuration values consumed by the decision logic of
`check_stop_loss_positions` (advanced_stop_loss.py lines 194-220), with
`stop_loss_threshold` carried as a value: this is the intended reading of
line 201, whose configured source is `TradingConfig.stop_loss_threshold`
(config_manager.py line 52, default `-5.0`). -/
structure StopCheckCfg where
  trailing_percent : ℚ
  atr_multiplier : ℚ
  min_hold_time : ℚ
  stop_loss_threshold : ℚ
  regime_aware : Bool
  high_vol_threshold : ℚ
  high_vol_tightening : ℚ
  deriving Repr, DecidableEq

/-- The per-position decision logic of `check_stop_loss_positions`
(advanced_stop_loss.py lines 181-220), with the threshold read at line
201 yielding `cfg.stop_loss_threshold`: skip non-long positions and
untracked symbols; skip while the hold time is below `min_hold_time`;
compute the (unused) regime-tightened `effective_threshold`; trigger iff
`current_price < effective_stop`, reporting
`loss_pct = (current_price - avg_cost) / avg_cost * 100`. -/
def should_exit_entry (cfg : StopCheckCfg)
    (trackers : List (String × PositionTracker)) (current_time : ℚ)
    (regime_prob : Option ℚ) (pos : BrokerPosition) :
    Option (String × ℚ × String) :=
  if pos.position ≤ 0 then none
  else
    let current_price := pos.marketValue / pos.position
    let avg_cost := pos.averageCost
    match findTracker trackers pos.symbol with
    | none => none
    | some tracker =>
      let hold_time_minutes := (current_time - tracker.entry_time) / 60
      if hold_time_minutes < cfg.min_hold_time then none
      else
        let _eff_thr := effective_threshold cfg.regime_aware cfg.high_vol_threshold
          cfg.high_vol_tightening cfg.stop_loss_threshold regime_prob
        let effective_stop := tracker.get_effective_stop cfg.trailing_percent cfg.atr_multiplier
        let loss_pct := (current_price - avg_cost) / avg_cost * 100
        if current_price < effective_stop then
          some (pos.symbol, loss_pct, "Stop-loss triggered")
        else none

/-- The full check over a broker snapshot under the intended reading of
line 201: one `should_exit_entry` decision per position, triggers
collected in order. -/
def check_all_logic (cfg : StopCheckCfg)
    (trackers : List (String × PositionTracker)) (current_time : ℚ)
    (probs : String → Option ℚ) (positions : List BrokerPosition) :
    List (String × ℚ × String) :=
  positions.filterMap (fun pos =>
    should_exit_entry cfg trackers current_time (probs pos.symbol) pos)

/-- Embeds the `AssetAllocation` dataclass of `portfolio_manager.py`
(lines 21-26): target fractions per asset class. -/
structure AssetAllocation where
  equity : ℚ
  fixed_income : ℚ
  crypto : ℚ
  deriving Repr, DecidableEq

/-- `AssetAllocation.__post_init__` validation (portfolio_manager.py
lines 28-32): constructing an allocation raises `ValueError` when the
three fractions sum to more than 0.01 away from 1.0, and otherwise
yields the object unchanged. -/
def mkAssetAllocation (equity fixed_income crypto : ℚ) :
    Except String AssetAllocation :=
  let total := equity + fixed_income + crypto
  if |total - 1| > 1/100 then
    Except.error "Las asignaciones deben sumar 100%"
  else
    Except.ok { equity := equity, fixed_income := fixed_income, crypto := crypto }

/-- `PortfolioManager.can_trade_asset_class` (portfolio_manager.py
lines 157-183), as a function of the data it reads: the total portfolio
value `V`, the current allocation fraction `c` of the asset class, its
target fraction `t`, and the proposed `trade_value`.  Returns
`(False, reason)` when `V ≤ 0`; otherwise computes
`new_allocation_pct = (c * V + trade_value) / V` and rejects iff it
exceeds `t + 0.05`. -/
def can_trade_asset_class (V c t trade_value : ℚ) : Bool × String :=
  if V ≤ 0 then (false, "Valor de cartera no disponible")
  else
    let new_allocation_pct := (c * V + trade_value) / V
    let max_allowed := t + 5/100
    if new_allocation_pct > max_allowed then
      (false, "Excederia limite de la clase de activo")
    else
      (true, "OK")

/-- `PortfolioManager.get_available_buying_power` (portfolio_manager.py
lines 185-204): `max(0, target_value * 1.05 - current_value)` with
`target_value = t * V` and `current_value = c * V`; `0` when `V ≤ 0`. -/
def get_available_buying_power (V c t : ℚ) : ℚ :=
  if V ≤ 0 then 0
  else
    let current_value := c * V
    let target_value := t * V
    let max_value := target_value * (105/100)
    max 0 (max_value - current_value)

/-- the Python `int()` builtin applied to a rational: truncation toward zero. -/
def pyInt (q : ℚ) : ℤ :=
  if q < 0 then ⌈q⌉ else ⌊q⌋

/-- `PortfolioManager.get_recommended_trade_size` (portfolio_manager.py
lines 206-237), as a function of the data it reads: total portfolio
value `V`, the `available_power` of the asset class, and `current_price`.
Returns 0 when `available_power ≤ 0`; caps the per-trade notional at
20% of `V` when `V < 100` and at 10% of `available_power` otherwise;
`max_shares = int(cap / price)`;
`recommended_shares = max(1, min(max_shares, 10))`; vetoes (returns 0)
when `recommended_shares * price` exceeds 50% of `V`. -/
def get_recommended_trade_size (V available_power current_price : ℚ) : ℤ :=
  if available_power ≤ 0 then 0
  else
    let max_trade_value := if V < 100 then V * (20/100) else available_power * (10/100)
    let max_shares : ℤ := pyInt (max_trade_value / current_price)
    let recommended_shares : ℤ := max 1 (min max_shares 10)
    let trade_value : ℚ := (recommended_shares : ℚ) * current_price
    if trade_value > V * (1/2) then 0 else recommended_shares

/-- The trade-size policy exactly as the words of the spec state it (spec §4.3
steps 2-4 and claim C6): choose the notional cap by the `V < 100` rule,
then `max(1, min(floor(cap / price), 10))` — with no veto step.  Used to
compare the stated spec policy against `get_recommended_trade_size`. -/
def spec_claimed_trade_size (V available_power current_price : ℚ) : ℤ :=
  let cap_notional := if V < 100 then V * (20/100) else available_power * (10/100)
  max 1 (min (pyInt (cap_notional / current_price)) 10)

/-! Helper lemmas (shared). -/

theorem update_high_price_high_le (t : PositionTracker) (p : ℚ) :
    t.high_price ≤ (t.update_high_price p).high_price := by
  unfold PositionTracker.update_high_price
  split
  · exact le_of_lt (by assumption)
  · exact le_refl _

theorem update_high_price_entry (t : PositionTracker) (p : ℚ) :
    (t.update_high_price p).entry_price = t.entry_price := by
  unfold PositionTracker.update_high_price
  split <;> rfl

theorem update_high_price_atr (t : PositionTracker) (p : ℚ) :
    (t.update_high_price p).atr_value = t.atr_value := by
  unfold PositionTracker.update_high_price
  split <;> rfl

theorem trackPrices_high_le (t : PositionTracker) (prices : List ℚ) :
    t.high_price ≤ (trackPrices t prices).high_price := by
  induction prices generalizing t with
  | nil => exact le_refl _
  | cons p rest ih =>
      exact le_trans (update_high_price_high_le t p) (ih (t.update_high_price p))

theorem trackPrices_entry (t : PositionTracker) (prices : List ℚ) :
    (trackPrices t prices).entry_price = t.entry_price := by
  induction prices generalizing t with
  | nil => rfl
  | cons p rest ih =>
      exact (ih (t.update_high_price p)).trans (update_high_price_entry t p)

/-- C1: for every position tracker state and every `trailing_percent` and
`atr_multiplier`, the effective stop equals the maximum of the trailing
stop `high_price * (1 - trailing_percent / 100)` and the ATR stop
`entry_price - atr_multiplier * atr_value`. -/
theorem effective_stop_is_max (t : PositionTracker)
    (trailing_percent atr_multiplier : ℚ) :
    t.get_effective_stop trailing_percent atr_multiplier =
      max (t.high_price * (1 - trailing_percent / 100))
        (t.entry_price - atr_multiplier * t.atr_value) := rfl

/-- C3: the high-water mark is monotone: each `update_high_price` leaves
`high_price` greater than or equal to its previous value; a tracker is
created with `high_price = max(entry_price, first observed price)`; and
after feeding any sequence of price observations to a freshly created
tracker, `high_price` is still greater than or equal to `entry_price`. -/
theorem high_water_mark_monotone :
    (∀ (t : PositionTracker) (p : ℚ),
      t.high_price ≤ (t.update_high_price p).high_price) ∧
    (∀ (sym : String) (avg_cost p0 now : ℚ) (qty : ℤ) (atr : ℚ),
      (mkPositionTracker sym avg_cost p0 now qty atr).high_price = max avg_cost p0) ∧
    (∀ (sym : String) (avg_cost p0 now : ℚ) (qty : ℤ) (atr : ℚ) (prices : List ℚ),
      (trackPrices (mkPositionTracker sym avg_cost p0 now qty atr) prices).entry_price ≤
        (trackPrices (mkPositionTracker sym avg_cost p0 now qty atr) prices).high_price) := by
  refine ⟨update_high_price_high_le, fun _ _ _ _ _ _ => rfl, ?_⟩
  intro sym avg_cost p0 now qty atr prices
  rw [trackPrices_entry]
  calc (mkPositionTracker sym avg_cost p0 now qty atr).entry_price
      ≤ (mkPositionTracker sym avg_cost p0 now qty atr).high_price := le_max_left _ _
    _ ≤ _ := trackPrices_high_le _ prices

/-- C7: the ATR refresh in `update_position_trackers` is dead code: the
update path assigns `last_check = current_time` before testing
`(current_time - tracker.last_check).seconds > 3600`, so the elapsed
time is always 0 and `atr_value` is never refreshed, no matter how much
time has passed since the previous refresh. -/
theorem atr_never_refreshed (tracker : PositionTracker)
    (current_price current_time fresh_atr : ℚ) :
    (update_existing_tracker tracker current_price current_time fresh_atr).atr_value =
      tracker.atr_value := by
  unfold update_existing_tracker
  simp [timedeltaSeconds, update_high_price_atr]

theorem getNumAttr_min_hold_time (cfg : StopLossConfig) :
    cfg.getNumAttr "min_hold_time" = some (cfg.min_hold_time : ℚ) := by
  simp [StopLossConfig.getNumAttr]

theorem getNumAttr_stop_loss_threshold (cfg : StopLossConfig) :
    cfg.getNumAttr "stop_loss_threshold" = none := by
  simp [StopLossConfig.getNumAttr]

theorem check_position_py_ne_some (cfg : StopLossConfig)
    (trackers : List (String × PositionTracker)) (current_time : ℚ)
    (regime_prob : Option ℚ) (pos : BrokerPosition)
    (entry : String × ℚ × String) :
    check_position_py cfg trackers current_time regime_prob pos ≠
      Except.ok (some entry) := by
  unfold check_position_py
  split
  · simp
  · cases findTracker trackers pos.symbol with
    | none => simp
    | some tracker =>
        simp only [getNumAttr_min_hold_time, getNumAttr_stop_loss_threshold]
        split <;> simp

theorem check_loop_py_no_growth (cfg : StopLossConfig)
    (trackers : List (String × PositionTracker)) (current_time : ℚ)
    (probs : String → Option ℚ) (positions : List BrokerPosition)
    (acc : List (String × ℚ × String)) :
    check_loop_py cfg trackers current_time probs positions acc = acc.reverse := by
  induction positions with
  | nil => rfl
  | cons pos rest ih =>
      unfold check_loop_py
      cases hc : check_position_py cfg trackers current_time (probs pos.symbol) pos with
      | error e => rfl
      | ok o =>
          cases o with
          | none => exact ih
          | some entry =>
              exact absurd hc
                (check_position_py_ne_some cfg trackers current_time (probs pos.symbol) pos entry)

/-- C2: the stop-loss check can never report a trigger.  The loop body
reads `self.config.stop_loss.stop_loss_threshold` (advanced_stop_loss.py
line 201), but `StopLossConfig` declares no such field — the field lives
on `TradingConfig` — so every position that passes the minimum-hold-time
gate raises `AttributeError`, the blanket `except` at line 234 swallows
it, and `check_stop_loss_positions` returns the empty list for every
configuration, tracker map, snapshot and regime signal.  The claimed
exit rule (trigger iff `current_price < effective_stop` after the hold
time) therefore never fires, even when the price is below the stop. -/
theorem check_stop_loss_positions_always_empty (cfg : StopLossConfig)
    (trackers : List (String × PositionTracker)) (current_time : ℚ)
    (probs : String → Option ℚ) (positions : List BrokerPosition) :
    check_stop_loss_positions cfg trackers current_time probs positions = [] := by
  unfold check_stop_loss_positions
  split
  · exact check_loop_py_no_growth cfg trackers current_time probs positions []
  · rfl

theorem should_exit_entry_regime_free (cfg1 cfg2 : StopCheckCfg)
    (trackers : List (String × PositionTracker)) (current_time : ℚ)
    (rp1 rp2 : Option ℚ) (pos : BrokerPosition)
    (htp : cfg1.trailing_percent = cfg2.trailing_percent)
    (ham : cfg1.atr_multiplier = cfg2.atr_multiplier)
    (hmh : cfg1.min_hold_time = cfg2.min_hold_time) :
    should_exit_entry cfg1 trackers current_time rp1 pos =
      should_exit_entry cfg2 trackers current_time rp2 pos := by
  unfold should_exit_entry
  rw [htp, ham, hmh]

/-- C10: the stop-loss trigger decision is independent of the regime
configuration and the regime probability signal: two runs of the check
that agree on `trailing_percent`, `atr_multiplier`, `min_hold_time` and
the threshold value, but differ arbitrarily in `regime_aware`,
`high_vol_threshold`, `high_vol_tightening` and the per-symbol regime
probabilities, produce the same list of triggered positions with the
same loss percentages — the tightened `effective_threshold` is computed
but never consumed by the comparison against `effective_stop`. -/
theorem regime_config_noninterference (cfg1 cfg2 : StopCheckCfg)
    (trackers : List (String × PositionTracker)) (current_time : ℚ)
    (probs1 probs2 : String → Option ℚ) (positions : List BrokerPosition)
    (htp : cfg1.trailing_percent = cfg2.trailing_percent)
    (ham : cfg1.atr_multiplier = cfg2.atr_multiplier)
    (hmh : cfg1.min_hold_time = cfg2.min_hold_time)
    (hthr : cfg1.stop_loss_threshold = cfg2.stop_loss_threshold) :
    check_all_logic cfg1 trackers current_time probs1 positions =
      check_all_logic cfg2 trackers current_time probs2 positions := by
  unfold check_all_logic
  induction positions with
  | nil => rfl
  | cons pos rest ih =>
      simp only [List.filterMap_cons]
      rw [should_exit_entry_regime_free cfg1 cfg2 trackers current_time
        (probs1 pos.symbol) (probs2 pos.symbol) pos htp ham hmh]
      cases should_exit_entry cfg2 trackers current_time (probs2 pos.symbol) pos with
      | none => exact ih
      | some entry => rw [ih]

/-- Witness for C10: a concrete tracked position checked under two
configurations that differ in all three regime knobs and in the regime
probability signal. -/
theorem regime_config_noninterference_witness :
    check_all_logic
      { trailing_percent := 5, atr_multiplier := 2, min_hold_time := 30,
        stop_loss_threshold := -5, regime_aware := true,
        high_vol_threshold := 1/2, high_vol_tightening := 3/5 }
      [("AAPL", mkPositionTracker "AAPL" 100 110 0 10 2)] 7200
      (fun _ => some (19/20)) [⟨"AAPL", 10, 1040, 100⟩] =
    check_all_logic
      { trailing_percent := 5, atr_multiplier := 2, min_hold_time := 30,
        stop_loss_threshold := -5, regime_aware := false,
        high_vol_threshold := 9/10, high_vol_tightening := 1/10 }
      [("AAPL", mkPositionTracker "AAPL" 100 110 0 10 2)] 7200
      (fun _ => none) [⟨"AAPL", 10, 1040, 100⟩] :=
  regime_config_noninterference _ _ _ _ _ _ _ rfl rfl rfl rfl

/-- C8 counterexample: with the regime knobs at their configured
defaults (`high_vol_threshold = 0.5`, `high_vol_tightening = 0.6`,
regime-aware on) and the configured stop-loss threshold at its default
`-5.0` (config_manager.py line 52), a high-volatility probability of
0.9 tightens the threshold to `-3.0`, which is NOT less than or equal
to the non-tightened `-5.0` — the claimed direction of the inequality
fails for the negative threshold the code actually uses. -/
theorem regime_tightening_counterexample :
    (0:ℚ) < 3/5 ∧ (3/5:ℚ) < 1 ∧
    defaultStopLossConfig.regime_aware = true ∧
    defaultStopLossConfig.high_vol_threshold < 9/10 ∧
    effective_threshold true defaultStopLossConfig.high_vol_threshold
      defaultStopLossConfig.high_vol_tightening (-5) (some (9/10)) = -3 ∧
    ¬ (effective_threshold true defaultStopLossConfig.high_vol_threshold
        defaultStopLossConfig.high_vol_tightening (-5) (some (9/10)) ≤
       effective_threshold true defaultStopLossConfig.high_vol_threshold
        defaultStopLossConfig.high_vol_tightening (-5) none) := by
  refine ⟨by norm_num, by norm_num, rfl, by norm_num [defaultStopLossConfig], ?_, ?_⟩ <;>
    norm_num [effective_threshold, defaultStopLossConfig]

/-- C8 amended: with regime-aware mode on and the probability above
`high_vol_threshold`, the tightened threshold moves toward zero — its
absolute value is at most that of the non-tightened threshold — for
every `high_vol_tightening` in (0,1).  (The direction `tightened ≤
non-tightened` claimed by the spec holds only for nonnegative
thresholds; the configured default threshold is `-5.0`, where the
tightened value is strictly greater.) -/
theorem regime_tightening_abs_le (ra : Bool) (hvt k thr p : ℚ)
    (hk0 : 0 < k) (hk1 : k < 1) (hra : ra = true) (hp : hvt < p) :
    |effective_threshold ra hvt k thr (some p)| ≤ |thr| := by
  subst hra
  simp only [effective_threshold, Bool.true_and, decide_eq_true_eq]
  rw [if_pos hp, abs_mul, abs_of_pos hk0]
  exact mul_le_of_le_one_right (abs_nonneg thr) (le_of_lt hk1)

/-- Witness for C8 amended, at the configured defaults. -/
theorem regime_tightening_abs_le_witness :
    (0:ℚ) < 3/5 ∧ (3/5:ℚ) < 1 ∧ (1/2:ℚ) < 9/10 ∧
    |effective_threshold true (1/2) (3/5) (-5) (some (9/10))| ≤ |(-5 : ℚ)| :=
  ⟨by norm_num, by norm_num, by norm_num,
    regime_tightening_abs_le true (1/2) (3/5) (-5) (9/10)
      (by norm_num) (by norm_num) rfl (by norm_num)⟩

/-- C4: for a positive portfolio value `V`, current class allocation
fraction `c`, target fraction `t` and proposed `trade_value`,
`can_trade_asset_class` returns `False` if and only if
`(c * V + trade_value) / V > t + 0.05`. -/
theorem can_trade_gate_iff (V c t trade_value : ℚ) (hV : 0 < V) :
    (can_trade_asset_class V c t trade_value).1 = false ↔
      (c * V + trade_value) / V > t + 5/100 := by
  have h0 : ¬ V ≤ 0 := not_le.mpr hV
  simp only [can_trade_asset_class, h0, if_false]
  split <;> simp_all

/-- Witness for C4: equity at 62% of a 100-value portfolio with target
60%; a trade of 4 projects to 66% > 65% and is rejected. -/
theorem can_trade_gate_iff_witness :
    (0:ℚ) < 100 ∧
    ((can_trade_asset_class 100 (62/100) (60/100) 4).1 = false ↔
      ((62:ℚ)/100 * 100 + 4) / 100 > 60/100 + 5/100) :=
  ⟨by norm_num, can_trade_gate_iff 100 (62/100) (60/100) 4 (by norm_num)⟩

/-- C5: for any portfolio value and available buying power and a
positive price, the recommended trade size lies in [0, 10], and whenever
it is positive the trade notional is at most half the portfolio value. -/
theorem trade_size_clamp_bounds (V price : ℚ) (ms : ℤ) :
    0 ≤ (if ((max 1 (min ms 10) : ℤ) : ℚ) * price > V * (1/2) then (0:ℤ)
          else max 1 (min ms 10)) ∧
    (if ((max 1 (min ms 10) : ℤ) : ℚ) * price > V * (1/2) then (0:ℤ)
      else max 1 (min ms 10)) ≤ 10 ∧
    (0 < (if ((max 1 (min ms 10) : ℤ) : ℚ) * price > V * (1/2) then (0:ℤ)
          else max 1 (min ms 10)) →
      (((if ((max 1 (min ms 10) : ℤ) : ℚ) * price > V * (1/2) then (0:ℤ)
        else max 1 (min ms 10)) : ℤ) : ℚ) * price ≤ (1/2) * V) := by
  split
  · exact ⟨le_refl 0, by norm_num, fun h => absurd h (lt_irrefl (0:ℤ))⟩
  · rename_i hveto
    refine ⟨le_trans (by norm_num) (le_max_left 1 _),
      max_le (by norm_num) (min_le_right _ 10), fun _ => ?_⟩
    have h := not_lt.mp hveto
    linarith

theorem trade_size_bounds (V available_power current_price : ℚ)
    (hp : 0 < current_price) :
    0 ≤ get_recommended_trade_size V available_power current_price ∧
    get_recommended_trade_size V available_power current_price ≤ 10 ∧
    (0 < get_recommended_trade_size V available_power current_price →
      (get_recommended_trade_size V available_power current_price : ℚ) * current_price ≤
        (1/2) * V) := by
  unfold get_recommended_trade_size
  split
  · exact ⟨le_refl 0, by norm_num, fun h => absurd h (lt_irrefl (0:ℤ))⟩
  · exact trade_size_clamp_bounds V current_price
      (pyInt ((if V < 100 then V * (20/100) else available_power * (10/100)) / current_price))

/-- Witness for C5, at the micro-account scenario `V = 80`,
`available_power = 50`, `price = 20`. -/
theorem trade_size_bounds_witness :
    (0:ℚ) < 20 ∧
    (0 ≤ get_recommended_trade_size 80 50 20 ∧
     get_recommended_trade_size 80 50 20 ≤ 10 ∧
     (0 < get_recommended_trade_size 80 50 20 →
       (get_recommended_trade_size 80 50 20 : ℚ) * 20 ≤ (1/2) * 80)) :=
  ⟨by norm_num, trade_size_bounds 80 50 20 (by norm_num)⟩

/-- C6 counterexample: at `V = 10`, `available_power = 5`,
`price = 20` (positive power and price), the policy formula of the
claim yields `max(1, min(floor(2/20), 10)) = 1` share, but the code
vetoes the trade (1 share costs 20 > 50% of 10) and returns 0: the
stated policy omits the veto step and does not equal the code. -/
theorem trade_size_policy_counterexample :
    (0:ℚ) < 5 ∧ (0:ℚ) < 20 ∧
    get_recommended_trade_size 10 5 20 = 0 ∧
    spec_claimed_trade_size 10 5 20 = 1 ∧
    get_recommended_trade_size 10 5 20 ≠ spec_claimed_trade_size 10 5 20 := by
  refine ⟨by norm_num, by norm_num, ?_, ?_, ?_⟩ <;>
    norm_num [get_recommended_trade_size, spec_claimed_trade_size, pyInt, min_def, max_def]

/-- C6 amended: for every positive available buying power and positive
price, the returned size equals the spec policy value
`max(1, min(floor(cap_notional / price), 10))` — with `cap_notional`
at 20% of `V` when `V < 100` and 10% of the available power otherwise —
unless that value times the price exceeds 50% of the portfolio value,
in which case 0 is returned; in particular, with `V = 80`,
`price = 20` and `available_power = 50`, the result is 1 share. -/
theorem trade_size_policy_amended (V available_power current_price : ℚ)
    (hpow : 0 < available_power) (hp : 0 < current_price) :
    (get_recommended_trade_size V available_power current_price =
      if (spec_claimed_trade_size V available_power current_price : ℚ) * current_price >
          V * (1/2) then 0
      else spec_claimed_trade_size V available_power current_price) ∧
    get_recommended_trade_size 80 50 20 = 1 := by
  constructor
  · unfold get_recommended_trade_size spec_claimed_trade_size
    rw [if_neg (not_le.mpr hpow)]
  · norm_num [get_recommended_trade_size, pyInt, min_def, max_def]

/-- Witness for C6 amended, at `V = 80`, `available_power = 50`,
`price = 20`. -/
theorem trade_size_policy_amended_witness :
    (0:ℚ) < 50 ∧ (0:ℚ) < 20 ∧
    ((get_recommended_trade_size 80 50 20 =
      if (spec_claimed_trade_size 80 50 20 : ℚ) * 20 > 80 * (1/2) then 0
      else spec_claimed_trade_size 80 50 20) ∧
     get_recommended_trade_size 80 50 20 = 1) :=
  ⟨by norm_num, by norm_num, trade_size_policy_amended 80 50 20 (by norm_num) (by norm_num)⟩

/-- C9: constructing an `AssetAllocation` succeeds if and only if the
three target fractions sum to within 0.01 of 1.0; it fails with an
error if and only if the sum is more than 0.01 away from 1.0; and every
successfully constructed allocation satisfies
`|equity + fixed_income + crypto - 1| ≤ 0.01`. -/
theorem asset_allocation_validation (e f c : ℚ) :
    ((∃ a, mkAssetAllocation e f c = Except.ok a) ↔ |e + f + c - 1| ≤ 1/100) ∧
    ((∃ msg, mkAssetAllocation e f c = Except.error msg) ↔ |e + f + c - 1| > 1/100) ∧
    (∀ a, mkAssetAllocation e f c = Except.ok a →
      |a.equity + a.fixed_income + a.crypto - 1| ≤ 1/100) := by
  by_cases h : |e + f + c - 1| > 1/100
  · have hmk : mkAssetAllocation e f c =
        Except.error "Las asignaciones deben sumar 100%" := by
      simp only [mkAssetAllocation]
      rw [if_pos h]
    refine ⟨?_, ?_, ?_⟩
    · rw [hmk]
      exact ⟨fun ⟨_, ha⟩ => Except.noConfusion ha, fun hle => absurd hle (not_le.mpr h)⟩
    · rw [hmk]
      exact ⟨fun _ => h, fun _ => ⟨_, rfl⟩⟩
    · intro a ha
      rw [hmk] at ha
      exact Except.noConfusion ha
  · have hle : |e + f + c - 1| ≤ 1/100 := not_lt.mp h
    have hmk : mkAssetAllocation e f c =
        Except.ok { equity := e, fixed_income := f, crypto := c } := by
      simp only [mkAssetAllocation]
      rw [if_neg h]
    refine ⟨?_, ?_, ?_⟩
    · rw [hmk]
      exact ⟨fun _ => hle, fun _ => ⟨_, rfl⟩⟩
    · rw [hmk]
      exact ⟨fun ⟨_, ha⟩ => Except.noConfusion ha, fun hgt => absurd hgt h⟩
    · intro a ha
      rw [hmk] at ha
      injection ha with ha2
      subst ha2
      simpa using hle

/-- Witness for C9: the default 60/30/10 allocation constructs
successfully and its fractions sum to exactly 1. -/
theorem asset_allocation_validation_witness :
    (∃ a, mkAssetAllocation (60/100) (30/100) (10/100) = Except.ok a) ∧
    |(60:ℚ)/100 + 30/100 + 10/100 - 1| ≤ 1/100 :=
  ⟨(asset_allocation_validation (60/100) (30/100) (10/100)).1.mpr (by norm_num),
    by norm_num⟩

end Robotrading
